import Mathlib

/-!
Shallow embedding of `my_app.py` (wildfire_schools): a Dash dashboard that
loads wildfire-incident, disaster-day and enrollment tables, merges and
aggregates them, and serves a per-county chart and table through one callback.

Dataframes are lists of row structures; a raw spreadsheet cell is a `Cell`
(a number, a missing value, or a non-numeric string); `pd.to_numeric(...,
errors="coerce")` is `toNumericCoerce`, which yields `none` (= NaN) instead of
raising.  Pandas group keys are taken in first-appearance order (`List.dedup`)
rather than sorted, since no property below depends on the order of groups.
-/

namespace WildfireSchools

/-- Python `str.lower()` on the ASCII county names: lowercase every
character. -/
def strLower (s : String) : String :=
  ⟨s.data.map Char.toLower⟩

/-- One step of Python `str.replace(pat, rep)` with fuel: scan left to
right, replacing non-overlapping occurrences of `pat`.  Each step consumes
at least one character, so `s.length` fuel always suffices for the
non-empty patterns used here. -/
def replaceFuel (pat rep : List Char) : ℕ → List Char → List Char
  | 0, s => s
  | _ + 1, [] => []
  | fuel + 1, c :: rest =>
    if pat <+: (c :: rest) then
      rep ++ replaceFuel pat rep fuel ((c :: rest).drop pat.length)
    else
      c :: replaceFuel pat rep fuel rest

/-- Python `str.replace(pat, rep)` on ASCII strings. -/
def strReplace (s pat rep : String) : String :=
  ⟨replaceFuel pat.data rep.data s.data.length s.data⟩

/-- A raw tabular cell as read from CSV/Excel: a numeric value, a missing
value (NaN), or a non-numeric string. -/
inductive Cell where
  | num (q : ℚ)
  | nan
  | str (s : String)
deriving DecidableEq, Repr

/-- `pd.to_numeric(col, errors="coerce")` applied to one cell: numbers pass
through, anything unparsable becomes a missing value (`none`), never an
error (lines 38-39 and 51-52 of my_app.py). -/
def toNumericCoerce : Cell → Option ℚ
  | Cell.num q => some q
  | Cell.nan => none
  | Cell.str _ => none

/-- Pandas float multiplication of two possibly-missing values: NaN
propagates. -/
def optMul : Option ℚ → Option ℚ → Option ℚ
  | some a, some b => some (a * b)
  | _, _ => none

/-- Pandas column `.sum()` with the default `skipna=True`: missing values are
skipped and an all-missing column sums to 0. -/
def skipnaSum (xs : List (Option ℚ)) : ℚ :=
  (xs.filterMap id).sum

/-- Pandas float division used on line 55: division by zero produces a
non-finite value (inf or NaN), modelled as a missing value. -/
def pandasDiv (a b : ℚ) : Option ℚ :=
  if b = 0 then none else some (a / b)

/-- One row of `disasterDays_final.csv` (line 13): a county, a year, a days
cell, the stated closure reason, and the file's own enrollment column (which
the merge renames to `enrollment_x`). -/
structure DisasterRow where
  county : String
  year : ℤ
  days : Cell
  reason : String
  enrollment : Cell
deriving DecidableEq, Repr

/-- One row of the melted enrollment table (lines 14-21; the Excel melt and
the County→county rename are out of scope of the claims, so the long format
is taken as input). -/
structure EnrollmentRow where
  county : String
  year : ℤ
  enrollment : Cell
deriving DecidableEq, Repr

/-- Line 24: lowercase the disaster-days county column. -/
def lowerCountyD (d : DisasterRow) : DisasterRow :=
  { d with county := strLower d.county }

/-- Line 25: lowercase the enrollment county column. -/
def lowerCountyE (e : EnrollmentRow) : EnrollmentRow :=
  { e with county := strLower e.county }

/-- One row of `pd.merge(disaster_days_df, enrollment_df, on=["year","county"],
how="inner")` (line 31), before any coercion: join keys plus both sides'
payload columns (the colliding `enrollment` columns become `_x`/`_y`). -/
structure MergedRowRaw where
  year : ℤ
  county : String
  days : Cell
  reason : String
  enrollment_x : Cell
  enrollment_y : Cell
deriving DecidableEq, Repr

/-- The inner-merge row test: both join keys equal. -/
def matchKey (d : DisasterRow) (e : EnrollmentRow) : Bool :=
  d.year == e.year && d.county == e.county

/-- `pd.merge(..., on=["year","county"], how="inner")` (line 31): every pair
of rows agreeing on both keys yields one output row, left-major order. -/
def innerMerge (ds : List DisasterRow) (es : List EnrollmentRow) :
    List MergedRowRaw :=
  ds.flatMap fun d =>
    (es.filter fun e => matchKey d e).map fun e =>
      { year := d.year, county := d.county, days := d.days,
        reason := d.reason, enrollment_x := d.enrollment,
        enrollment_y := e.enrollment }

/-- One row of `disaster_enrollment_df` after lines 38-42: the `days` and
`enrollment_y` columns overwritten by their coercions, plus the derived
`total_days_lost_school` column. -/
structure MergedRow where
  year : ℤ
  county : String
  days : Option ℚ
  reason : String
  enrollment_x : Cell
  enrollment_y : Option ℚ
  total_days_lost_school : Option ℚ
deriving DecidableEq, Repr

/-- Lines 38-42 applied to one merged row: coerce `days` and `enrollment_y`
to numeric (NaN on failure), then assign
`total_days_lost_school = days * enrollment_y`. -/
def coerceAndDerive (m : MergedRowRaw) : MergedRow :=
  { year := m.year, county := m.county,
    days := toNumericCoerce m.days,
    reason := m.reason,
    enrollment_x := m.enrollment_x,
    enrollment_y := toNumericCoerce m.enrollment_y,
    total_days_lost_school :=
      optMul (toNumericCoerce m.days) (toNumericCoerce m.enrollment_y) }

/-- `disaster_enrollment_df` (lines 24-42): lowercase both county columns,
inner-merge on (year, county), coerce, derive the product column. -/
def disasterEnrollment (ds : List DisasterRow) (es : List EnrollmentRow) :
    List MergedRow :=
  (innerMerge (ds.map lowerCountyD) (es.map lowerCountyE)).map coerceAndDerive

/-- One row of `county_agg_df` (lines 45-48).  The two aggregates are already
numeric, so the re-coercion on lines 51-52 is the identity; the
`days_per_student` column of line 55 is the derived field below. -/
structure AggRow where
  year : ℤ
  county : String
  total_days_lost : ℚ
  total_enrollment : ℚ
deriving DecidableEq, Repr

/-- Line 55: `days_per_student = total_days_lost / total_enrollment`. -/
def AggRow.days_per_student (r : AggRow) : Option ℚ :=
  pandasDiv r.total_days_lost r.total_enrollment

/-- The group keys of `groupby(["year","county"])`: the distinct (year,
county) pairs of the merged frame. -/
def groupKeys (ms : List MergedRow) : List (ℤ × String) :=
  (ms.map fun m => (m.year, m.county)).dedup

/-- Lines 45-48: group the merged frame by (year, county) and sum
`total_days_lost_school` and `enrollment_y` within each group (pandas sum
skips NaN). -/
def countyAgg (ms : List MergedRow) : List AggRow :=
  (groupKeys ms).map fun k =>
    { year := k.1, county := k.2,
      total_days_lost :=
        skipnaSum ((ms.filter fun m =>
          m.year == k.1 && m.county == k.2).map
            MergedRow.total_days_lost_school),
      total_enrollment :=
        skipnaSum ((ms.filter fun m =>
          m.year == k.1 && m.county == k.2).map MergedRow.enrollment_y) }

/-- One row of `ics209-plus-wf_incidents_by_county_1999to2020.csv`
(line 12); only the columns the app touches are modelled. -/
structure CountyIncidentRow where
  COUNTY_NAME : String
  YEAR : ℤ
  INCIDENT_ID : Cell
deriving DecidableEq, Repr

/-- Line 68: lowercase `COUNTY_NAME` and strip a trailing (in fact every)
occurrence of the substring " county". -/
def normalizeCountyName (r : CountyIncidentRow) : CountyIncidentRow :=
  { r with COUNTY_NAME := strReplace (strLower r.COUNTY_NAME) " county" "" }

/-- Lines 58-65: the 58 California county names. -/
def california_counties : List String :=
  ["Alameda", "Alpine", "Amador", "Butte", "Calaveras", "Colusa",
   "Contra Costa", "Del Norte", "El Dorado", "Fresno", "Glenn", "Humboldt",
   "Imperial", "Inyo", "Kern", "Kings", "Lake", "Lassen", "Los Angeles",
   "Madera", "Marin", "Mariposa", "Mendocino", "Merced", "Modoc", "Mono",
   "Monterey", "Napa", "Nevada", "Orange", "Placer", "Plumas", "Riverside",
   "Sacramento", "San Benito", "San Bernardino", "San Diego",
   "San Francisco", "San Joaquin", "San Luis Obispo", "San Mateo",
   "Santa Barbara", "Santa Clara", "Santa Cruz", "Shasta", "Sierra",
   "Siskiyou", "Solano", "Sonoma", "Stanislaus", "Sutter", "Tehama",
   "Trinity", "Tulare", "Tuolumne", "Ventura", "Yolo", "Yuba"]

/-- Line 71: the county list lowercased for matching. -/
def california_counties_lower : List String :=
  california_counties.map strLower

/-- Lines 72-76: keep incident rows whose normalized county name is a
California county and whose year lies in 2002..2018. -/
def merged_df_california (inc : List CountyIncidentRow) :
    List CountyIncidentRow :=
  (inc.map normalizeCountyName).filter fun r =>
    decide (r.COUNTY_NAME ∈ california_counties_lower) &&
    decide (2002 ≤ r.YEAR) && decide (r.YEAR ≤ 2018)

/-- Line 79: keep aggregate rows with year in 2002..2018. -/
def countyAggFiltered (ms : List MergedRow) : List AggRow :=
  (countyAgg ms).filter fun r =>
    decide (2002 ≤ r.year) && decide (r.year ≤ 2018)

/-- Pandas `.max()` over a column of cells: missing values are skipped;
an empty or all-missing column gives NaN (line 83). -/
def cellColMax (cs : List Cell) : Cell :=
  match cs.filterMap toNumericCoerce with
  | [] => Cell.nan
  | q :: qs => Cell.num (qs.foldl max q)

/-- The process-wide dataframes (and the one derived scalar the callback
reads), computed once at startup and only read by the callback. -/
structure GlobalState where
  merged_df_california : List CountyIncidentRow
  county_agg_df : List AggRow
  enrollment_df : List EnrollmentRow
  global_students_max : Cell
deriving DecidableEq, Repr

/-- Lines 11-85: the whole startup pipeline, from the three raw tables the
claims touch to the process-wide state. -/
def startup (inc : List CountyIncidentRow) (ds : List DisasterRow)
    (es : List EnrollmentRow) : GlobalState :=
  { merged_df_california := merged_df_california inc,
    county_agg_df := countyAggFiltered (disasterEnrollment ds es),
    enrollment_df := es.map lowerCountyE,
    global_students_max :=
      cellColMax (((es.map lowerCountyE).filter fun e =>
        e.year == 2018).map EnrollmentRow.enrollment) }

/-! ### The callback (lines 119-166), one definition per local dataframe -/

/-- Line 121: incident rows of the selected county. -/
def county_data (st : GlobalState) (sel : String) : List CountyIncidentRow :=
  st.merged_df_california.filter fun r => r.COUNTY_NAME == strLower sel

/-- Line 122: aggregate rows of the selected county. -/
def disaster_data (st : GlobalState) (sel : String) : List AggRow :=
  st.county_agg_df.filter fun r => r.county == strLower sel

/-- Line 123: the selected county's 2018 enrollment rows. -/
def enrollment_data (st : GlobalState) (sel : String) : List EnrollmentRow :=
  st.enrollment_df.filter fun r => r.county == strLower sel && r.year == 2018

/-- Lines 126-127: `county_data.groupby("YEAR")["INCIDENT_ID"].count()`,
renamed to (Year, Students_Affected): one pair per distinct year, the count
of non-missing INCIDENT_ID cells in that year's rows. -/
def agg_df (st : GlobalState) (sel : String) : List (ℤ × ℕ) :=
  ((county_data st sel).map CountyIncidentRow.YEAR).dedup.map fun y =>
    (y, ((county_data st sel).filter fun r =>
      r.YEAR == y && decide (r.INCIDENT_ID ≠ Cell.nan)).length)

/-- One row of `plot_df` (line 133) after `.fillna(0)`, restricted to the
columns the figure and table read. -/
structure PlotRow where
  Year : ℤ
  Students_Affected : ℕ
  total_days_lost : ℚ
  total_enrollment : ℚ
  days_per_student : ℚ
deriving DecidableEq, Repr

/-- Line 133: left-merge the per-year incident counts with the county's
aggregate rows on year, then fill missing values with 0: an unmatched year
keeps its count and gets 0 in every aggregate column; a matched year copies
the aggregate row (a NaN ratio also becomes 0). -/
def leftMergeFill (agg : List (ℤ × ℕ)) (da : List AggRow) : List PlotRow :=
  agg.flatMap fun yc =>
    if (da.filter fun r => r.year == yc.1).isEmpty then
      [{ Year := yc.1, Students_Affected := yc.2, total_days_lost := 0,
         total_enrollment := 0, days_per_student := 0 }]
    else
      (da.filter fun r => r.year == yc.1).map fun r =>
        { Year := yc.1, Students_Affected := yc.2,
          total_days_lost := r.total_days_lost,
          total_enrollment := r.total_enrollment,
          days_per_student := (AggRow.days_per_student r).getD 0 }

/-- Line 133's `plot_df` for the selected county. -/
def plot_df (st : GlobalState) (sel : String) : List PlotRow :=
  leftMergeFill (agg_df st sel) (disaster_data st sel)

/-- Line 139: `enrollment_data["enrollment"].values[0]` when the filtered
frame is non-empty, else the global 2018 maximum; the position-0 access is
guarded by the emptiness test. -/
def enrollment_2018 (st : GlobalState) (sel : String) : Cell :=
  match enrollment_data st sel with
  | [] => st.global_students_max
  | e :: _ => e.enrollment

/-- A table-cell value of `to_dict("records")`: ints stay ints, the
aggregate columns are floats. -/
inductive Val where
  | int (n : ℤ)
  | rat (q : ℚ)
deriving DecidableEq, Repr

/-- Line 164: one record of `plot_df[["Year", "Students_Affected",
"total_days_lost", "total_enrollment", "days_per_student"]].to_dict("records")`:
exactly those five keys, in column order. -/
def PlotRow.toRecord (r : PlotRow) : List (String × Val) :=
  [("Year", Val.int r.Year),
   ("Students_Affected", Val.int (r.Students_Affected : ℤ)),
   ("total_days_lost", Val.rat r.total_days_lost),
   ("total_enrollment", Val.rat r.total_enrollment),
   ("days_per_student", Val.rat r.days_per_student)]

/-- A plotly trace kind: `go.Bar` or `go.Scatter`. -/
inductive TraceKind where
  | bar
  | scatter
deriving DecidableEq, Repr

/-- One trace of the figure: its kind and its x/y columns. -/
structure Trace where
  kind : TraceKind
  x : List ℤ
  y : List ℚ
deriving DecidableEq, Repr

/-- What the callback returns (lines 142-166): the figure's traces and
y-axis bound, and the table records. -/
structure CallbackOutput where
  traces : List Trace
  yAxisMax : Cell
  tableData : List (List (String × Val))
deriving DecidableEq, Repr

/-- Lines 119-166: the callback.  It reads the process-wide state and
returns the figure and table; the state is threaded through explicitly and
passed back untouched, mirroring that no statement in the Python body
assigns to any global frame. -/
def update_chart (st : GlobalState) (sel : String) :
    CallbackOutput × GlobalState :=
  ({ traces :=
      [{ kind := TraceKind.bar,
         x := (plot_df st sel).map PlotRow.Year,
         y := (plot_df st sel).map fun p => (p.Students_Affected : ℚ) },
       { kind := TraceKind.scatter,
         x := (plot_df st sel).map PlotRow.Year,
         y := (plot_df st sel).map PlotRow.days_per_student }],
     yAxisMax := enrollment_2018 st sel,
     tableData := (plot_df st sel).map PlotRow.toRecord },
   st)

/-! ## Claims -/

/-- Bool substring test on char lists, structural so the kernel can
evaluate it. -/
def startsWith : List Char → List Char → Bool
  | [], _ => true
  | _ :: _, [] => false
  | p :: ps, c :: cs => p == c && startsWith ps cs

/-- Bool: does the pattern occur anywhere in the list? -/
def containsSub (pat : List Char) : List Char → Bool
  | [] => startsWith pat []
  | c :: rest => startsWith pat (c :: rest) || containsSub pat rest

/-- Modelled from the spec: the code has no wildfire predicate, and the spec
glossary calls the disaster-day causes "filtered here to wildfire-related
causes"; a reason string is wildfire-related when it mentions "fire". -/
def wildfireRelatedReason (s : String) : Bool :=
  containsSub "fire".data (strLower s).data

/-- A disaster-day row whose stated cause is not wildfire-related. -/
def floodRow : DisasterRow :=
  { county := "butte", year := 2017, days := Cell.num 3,
    reason := "Flood", enrollment := Cell.nan }

/-- An enrollment row matching `floodRow` on both join keys. -/
def floodEnrollmentRow : EnrollmentRow :=
  { county := "butte", year := 2017, enrollment := Cell.num 40 }

/-- C1 counterexample: a disaster-day row whose reason is "Flood" — not a
wildfire-related cause — still contributes a row to the merged
disaster/enrollment data: the program applies no cause filter. -/
theorem c1_nonwildfire_row_contributes :
    ∃ m ∈ disasterEnrollment [floodRow] [floodEnrollmentRow],
      wildfireRelatedReason m.reason = false := by
  decide

/-- `lowerCountyD` commutes with updating the reason column. -/
theorem lowerCountyD_reason_update (f : String → String) (d : DisasterRow) :
    lowerCountyD { d with reason := f d.reason }
      = { lowerCountyD d with reason := f (lowerCountyD d).reason } := rfl

/-- The inner merge is oblivious to the reason column: rewriting every
reason string commutes with the merge. -/
theorem innerMerge_reason_update (ds : List DisasterRow)
    (es : List EnrollmentRow) (f : String → String) :
    innerMerge (ds.map fun d => { d with reason := f d.reason }) es
      = (innerMerge ds es).map fun m => { m with reason := f m.reason } := by
  induction ds with
  | nil => rfl
  | cons d t ih =>
    simp only [List.map_cons, innerMerge, List.flatMap_cons] at ih ⊢
    rw [ih]
    simp [matchKey, List.map_map]

/-- C1 (amended): the program applies no cause-based filter to disaster-day
rows: whether and how a row contributes to the merged disaster/enrollment
data is independent of its reason string, which is only carried through
(the wildfire restriction, if any, lives in the input file, not in the
program). -/
theorem c1_merge_independent_of_reason (ds : List DisasterRow)
    (es : List EnrollmentRow) (f : String → String) :
    disasterEnrollment (ds.map fun d => { d with reason := f d.reason }) es
      = (disasterEnrollment ds es).map fun m =>
          { m with reason := f m.reason } := by
  unfold disasterEnrollment
  have hmaps : (ds.map fun d => { d with reason := f d.reason }).map
      lowerCountyD
      = (ds.map lowerCountyD).map fun d => { d with reason := f d.reason } := by
    simp [List.map_map]
    intro a _
    rfl
  rw [hmaps, innerMerge_reason_update]
  simp [List.map_map]
  intro a _
  rfl

/-- C2: every row of the county aggregate comes from a (year, county) pair
present in both merged tables (an inner join: a key in only one table yields
no row), its `total_days_lost` is the sum of the per-row days-lost products
of its group, its `total_enrollment` the sum of the group's enrollment
values, and its `days_per_student` the quotient of the two. -/
theorem c2_county_agg_inner_join_sums (ds : List DisasterRow)
    (es : List EnrollmentRow) (r : AggRow)
    (hr : r ∈ countyAgg (disasterEnrollment ds es)) :
    (∃ d ∈ ds, d.year = r.year ∧ strLower d.county = r.county) ∧
    (∃ e ∈ es, e.year = r.year ∧ strLower e.county = r.county) ∧
    r.total_days_lost =
      skipnaSum (((disasterEnrollment ds es).filter fun m =>
        m.year == r.year && m.county == r.county).map
          MergedRow.total_days_lost_school) ∧
    r.total_enrollment =
      skipnaSum (((disasterEnrollment ds es).filter fun m =>
        m.year == r.year && m.county == r.county).map
          MergedRow.enrollment_y) ∧
    AggRow.days_per_student r =
      pandasDiv r.total_days_lost r.total_enrollment := by
  simp only [countyAgg, List.mem_map] at hr
  obtain ⟨k, hk, rfl⟩ := hr
  simp only [groupKeys, List.mem_dedup, List.mem_map] at hk
  obtain ⟨m, hm, hkey⟩ := hk
  subst hkey
  simp only [disasterEnrollment, List.mem_map] at hm
  obtain ⟨raw, hraw, rfl⟩ := hm
  simp only [innerMerge, List.mem_flatMap, List.mem_map, List.mem_filter]
    at hraw
  obtain ⟨dL, ⟨d, hd, rfl⟩, e', ⟨⟨e, he, rfl⟩, hmatch⟩, rfl⟩ := hraw
  simp only [matchKey, lowerCountyD, lowerCountyE, Bool.and_eq_true,
    beq_iff_eq] at hmatch
  refine ⟨⟨d, hd, rfl, rfl⟩, ⟨e, he, ?_, ?_⟩, rfl, rfl, rfl⟩
  · exact hmatch.1.symm
  · exact hmatch.2.symm

/-- Concrete disaster-day row used by witnesses. -/
def wDisasterRow : DisasterRow :=
  { county := "Butte", year := 2018, days := Cell.num 5,
    reason := "Wildfire", enrollment := Cell.nan }

/-- Concrete enrollment row matching `wDisasterRow` on both keys. -/
def wEnrollmentRow : EnrollmentRow :=
  { county := "Butte", year := 2018, enrollment := Cell.num 100 }

/-- The aggregate row the pipeline computes from the two rows above. -/
def wAggRow : AggRow :=
  { year := 2018, county := "butte", total_days_lost := 500,
    total_enrollment := 100 }

/-- C2 witness: the aggregate of one matching disaster/enrollment pair. -/
theorem c2_county_agg_inner_join_sums_witness :
    wAggRow ∈ countyAgg (disasterEnrollment [wDisasterRow] [wEnrollmentRow]) ∧
    (∃ d ∈ [wDisasterRow], d.year = wAggRow.year ∧
      strLower d.county = wAggRow.county) ∧
    (∃ e ∈ [wEnrollmentRow], e.year = wAggRow.year ∧
      strLower e.county = wAggRow.county) ∧
    wAggRow.total_days_lost =
      skipnaSum (((disasterEnrollment [wDisasterRow]
        [wEnrollmentRow]).filter fun m =>
          m.year == wAggRow.year && m.county == wAggRow.county).map
            MergedRow.total_days_lost_school) ∧
    wAggRow.total_enrollment =
      skipnaSum (((disasterEnrollment [wDisasterRow]
        [wEnrollmentRow]).filter fun m =>
          m.year == wAggRow.year && m.county == wAggRow.county).map
            MergedRow.enrollment_y) ∧
    AggRow.days_per_student wAggRow =
      pandasDiv wAggRow.total_days_lost wAggRow.total_enrollment := by
  have heq : countyAgg (disasterEnrollment [wDisasterRow] [wEnrollmentRow])
      = [wAggRow] := by
    simp +decide [countyAgg, groupKeys, disasterEnrollment, innerMerge,
      matchKey, lowerCountyD, lowerCountyE, coerceAndDerive, toNumericCoerce,
      optMul, skipnaSum, wDisasterRow, wEnrollmentRow, wAggRow]
    norm_num
  have hr : wAggRow ∈
      countyAgg (disasterEnrollment [wDisasterRow] [wEnrollmentRow]) := by
    rw [heq]; exact List.mem_singleton_self _
  exact ⟨hr, c2_county_agg_inner_join_sums [wDisasterRow] [wEnrollmentRow]
    wAggRow hr⟩

/-- NaN propagates through the product when the left factor is missing. -/
theorem optMul_none_left (x : Option ℚ) : optMul none x = none := by
  cases x <;> rfl

/-- NaN propagates through the product when the right factor is missing. -/
theorem optMul_none_right (x : Option ℚ) : optMul x none = none := by
  cases x <;> rfl

/-- C3: in every row of the merged disaster/enrollment frame,
`total_days_lost_school` is the product of the row's (coerced) days and
enrollment values; if either is missing the product is missing. -/
theorem c3_days_lost_product (ds : List DisasterRow) (es : List EnrollmentRow)
    (m : MergedRow) (hm : m ∈ disasterEnrollment ds es) :
    (∀ a b, m.days = some a → m.enrollment_y = some b →
      m.total_days_lost_school = some (a * b)) ∧
    (m.days = none ∨ m.enrollment_y = none →
      m.total_days_lost_school = none) := by
  simp only [disasterEnrollment, List.mem_map] at hm
  obtain ⟨raw, _, rfl⟩ := hm
  constructor
  · intro a b ha hb
    simp only [coerceAndDerive] at ha hb ⊢
    rw [ha, hb]
    rfl
  · intro h
    simp only [coerceAndDerive] at h ⊢
    rcases h with h | h
    · rw [h, optMul_none_left]
    · rw [h, optMul_none_right]

/-- The merged row the pipeline computes from the two witness rows. -/
def wMergedRow : MergedRow :=
  { year := 2018, county := "butte", days := some 5, reason := "Wildfire",
    enrollment_x := Cell.nan, enrollment_y := some 100,
    total_days_lost_school := some 500 }

/-- C3 witness: the one merged row of the witness tables multiplies 5 days
by 100 students. -/
theorem c3_days_lost_product_witness :
    wMergedRow ∈ disasterEnrollment [wDisasterRow] [wEnrollmentRow] ∧
    wMergedRow.total_days_lost_school = some (5 * 100) := by
  have heq : disasterEnrollment [wDisasterRow] [wEnrollmentRow]
      = [wMergedRow] := by
    simp +decide [disasterEnrollment, innerMerge, matchKey, lowerCountyD,
      lowerCountyE, coerceAndDerive, toNumericCoerce, optMul, wDisasterRow,
      wEnrollmentRow, wMergedRow]
    norm_num
  have hm : wMergedRow ∈ disasterEnrollment [wDisasterRow] [wEnrollmentRow] := by
    rw [heq]; exact List.mem_singleton_self _
  exact ⟨hm, (c3_days_lost_product [wDisasterRow] [wEnrollmentRow]
    wMergedRow hm).1 5 100 rfl rfl⟩

/-- C7: numeric coercion never raises: a string cell in the days or
enrollment column becomes a missing value, and a row holding one still
flows through the merge, with NaN in the coerced columns and in the
product. -/
theorem c7_coercion_silent_nan (ds : List DisasterRow)
    (es : List EnrollmentRow) (d : DisasterRow) (e : EnrollmentRow)
    (s t : String) (hd : d ∈ ds) (he : e ∈ es)
    (hk : matchKey (lowerCountyD d) (lowerCountyE e) = true)
    (hds : d.days = Cell.str s) (hes : e.enrollment = Cell.str t) :
    (∀ u, toNumericCoerce (Cell.str u) = none) ∧
    toNumericCoerce Cell.nan = none ∧
    ∃ m ∈ disasterEnrollment ds es,
      m.days = none ∧ m.enrollment_y = none ∧
      m.total_days_lost_school = none := by
  refine ⟨fun u => rfl, rfl, ?_⟩
  refine ⟨coerceAndDerive
    { year := (lowerCountyD d).year, county := (lowerCountyD d).county,
      days := (lowerCountyD d).days, reason := (lowerCountyD d).reason,
      enrollment_x := (lowerCountyD d).enrollment,
      enrollment_y := (lowerCountyE e).enrollment }, ?_, ?_⟩
  · simp only [disasterEnrollment, List.mem_map]
    refine ⟨_, ?_, rfl⟩
    simp only [innerMerge, List.mem_flatMap, List.mem_map, List.mem_filter]
    exact ⟨lowerCountyD d, ⟨d, hd, rfl⟩,
      lowerCountyE e, ⟨⟨e, he, rfl⟩, hk⟩, rfl⟩
  · simp only [coerceAndDerive, lowerCountyD, lowerCountyE]
    simp only [hds, hes, toNumericCoerce]
    exact ⟨trivial, trivial, optMul_none_left none⟩

/-- A disaster-day row whose days cell does not parse as a number. -/
def wBadDisasterRow : DisasterRow :=
  { county := "Napa", year := 2015, days := Cell.str "five",
    reason := "Wildfire", enrollment := Cell.nan }

/-- An enrollment row, matching on both keys, whose enrollment cell does
not parse as a number. -/
def wBadEnrollmentRow : EnrollmentRow :=
  { county := "Napa", year := 2015, enrollment := Cell.str "n/a" }

/-- C7 witness: unparsable days and enrollment cells become NaN and the row
still reaches the merged frame. -/
theorem c7_coercion_silent_nan_witness :
    matchKey (lowerCountyD wBadDisasterRow) (lowerCountyE wBadEnrollmentRow)
        = true ∧
    ∃ m ∈ disasterEnrollment [wBadDisasterRow] [wBadEnrollmentRow],
      m.days = none ∧ m.enrollment_y = none ∧
      m.total_days_lost_school = none := by
  refine ⟨by decide, ?_⟩
  exact (c7_coercion_silent_nan [wBadDisasterRow] [wBadEnrollmentRow]
    wBadDisasterRow wBadEnrollmentRow "five" "n/a"
    (List.mem_singleton_self _) (List.mem_singleton_self _) (by decide)
    rfl rfl).2.2

/-- Inversion for the left-merge-and-fill of line 133: every plot row stems
from one counted year, and either copies a matching aggregate row or is
zero-filled when no aggregate row matches. -/
theorem mem_leftMergeFill (agg : List (ℤ × ℕ)) (da : List AggRow)
    (p : PlotRow) (hp : p ∈ leftMergeFill agg da) :
    ∃ yn ∈ agg, p.Year = yn.1 ∧ p.Students_Affected = yn.2 ∧
      ((∃ r ∈ da, r.year = yn.1 ∧ p.total_days_lost = r.total_days_lost ∧
        p.total_enrollment = r.total_enrollment ∧
        p.days_per_student = (AggRow.days_per_student r).getD 0) ∨
       ((da.filter fun r => r.year == yn.1) = [] ∧ p.total_days_lost = 0 ∧
        p.total_enrollment = 0 ∧ p.days_per_student = 0)) := by
  simp only [leftMergeFill, List.mem_flatMap] at hp
  obtain ⟨yn, hyn, hpin⟩ := hp
  by_cases hE : ((da.filter fun r => r.year == yn.1).isEmpty = true)
  · rw [if_pos hE, List.mem_singleton] at hpin
    subst hpin
    exact ⟨yn, hyn, rfl, rfl,
      Or.inr ⟨List.isEmpty_iff.mp hE, rfl, rfl, rfl⟩⟩
  · rw [if_neg hE, List.mem_map] at hpin
    obtain ⟨r0, hr0, heq⟩ := hpin
    rw [List.mem_filter] at hr0
    subst heq
    exact ⟨yn, hyn, rfl, rfl,
      Or.inl ⟨r0, hr0.1, beq_iff_eq.mp hr0.2, rfl, rfl, rfl⟩⟩

/-- The left join keeps every left row: each counted year yields a plot
row with its count. -/
theorem leftMergeFill_covers (agg : List (ℤ × ℕ)) (da : List AggRow)
    (yn : ℤ × ℕ) (hyn : yn ∈ agg) :
    ∃ p ∈ leftMergeFill agg da,
      p.Year = yn.1 ∧ p.Students_Affected = yn.2 := by
  by_cases hE : ((da.filter fun r => r.year == yn.1).isEmpty = true)
  · refine ⟨⟨yn.1, yn.2, 0, 0, 0⟩, ?_, rfl, rfl⟩
    simp only [leftMergeFill, List.mem_flatMap]
    refine ⟨yn, hyn, ?_⟩
    rw [if_pos hE]
    exact List.mem_singleton_self _
  · rcases hfil : (da.filter fun r => r.year == yn.1) with _ | ⟨r0, rest⟩
    · rw [hfil] at hE
      simp at hE
    · refine ⟨⟨yn.1, yn.2, r0.total_days_lost, r0.total_enrollment,
        (AggRow.days_per_student r0).getD 0⟩, ?_, rfl, rfl⟩
      simp only [leftMergeFill, List.mem_flatMap]
      refine ⟨yn, hyn, ?_⟩
      rw [if_neg hE]
      refine List.mem_map_of_mem _ ?_
      rw [hfil]
      exact List.mem_cons_self _ _

/-- C4: the per-county callback merges the incident counts with the
county's aggregate rows by a left join on year — every counted year
produces a plot row and every plot row's year is a counted year — and a
year with no aggregate row is zero-filled: its `total_days_lost`,
`total_enrollment` and `days_per_student` are 0 in the merged result. -/
theorem c4_left_join_zero_fill (st : GlobalState) (sel : String) :
    (∀ yn ∈ agg_df st sel, ∃ p ∈ plot_df st sel,
      p.Year = yn.1 ∧ p.Students_Affected = yn.2) ∧
    (∀ p ∈ plot_df st sel, p.Year ∈ (agg_df st sel).map Prod.fst) ∧
    (∀ p ∈ plot_df st sel,
      (∀ r ∈ disaster_data st sel, r.year ≠ p.Year) →
      p.total_days_lost = 0 ∧ p.total_enrollment = 0 ∧
        p.days_per_student = 0) := by
  refine ⟨fun yn hyn => leftMergeFill_covers _ _ yn hyn, ?_, ?_⟩
  · intro p hp
    obtain ⟨yn, hyn, hY, -, -⟩ :=
      mem_leftMergeFill (agg_df st sel) (disaster_data st sel) p hp
    rw [List.mem_map]
    exact ⟨yn, hyn, hY.symm⟩
  · intro p hp habs
    obtain ⟨yn, hyn, hY, -, hcase⟩ :=
      mem_leftMergeFill (agg_df st sel) (disaster_data st sel) p hp
    rcases hcase with ⟨r, hr, hyr, -⟩ | ⟨-, h1, h2, h3⟩
    · exact absurd (hyr.trans hY.symm) (habs r hr)
    · exact ⟨h1, h2, h3⟩

/-- C5: the callback filters the three process-wide dataframes to the
selected county's rows, left-merges the per-year incident counts with the
county aggregate on year (each plot row either copies one matching
aggregate row — including its derived per-student ratio — or is
zero-filled), and returns exactly a bar trace and a line trace over the
merged rows plus one flat record per merged row. -/
theorem c5_callback_filters_merge_traces (st : GlobalState) (sel : String) :
    ((update_chart st sel).1.traces.map Trace.kind
        = [TraceKind.bar, TraceKind.scatter]) ∧
    (∀ r ∈ county_data st sel, r.COUNTY_NAME = strLower sel) ∧
    (∀ r ∈ disaster_data st sel, r.county = strLower sel) ∧
    (∀ r ∈ enrollment_data st sel, r.county = strLower sel ∧ r.year = 2018) ∧
    ((update_chart st sel).1.traces =
      [{ kind := TraceKind.bar, x := (plot_df st sel).map PlotRow.Year,
         y := (plot_df st sel).map fun p => (p.Students_Affected : ℚ) },
       { kind := TraceKind.scatter, x := (plot_df st sel).map PlotRow.Year,
         y := (plot_df st sel).map PlotRow.days_per_student }]) ∧
    ((update_chart st sel).1.tableData
        = (plot_df st sel).map PlotRow.toRecord) ∧
    (∀ p ∈ plot_df st sel,
      (∃ r ∈ disaster_data st sel, r.year = p.Year ∧
        p.total_days_lost = r.total_days_lost ∧
        p.total_enrollment = r.total_enrollment ∧
        p.days_per_student = (AggRow.days_per_student r).getD 0) ∨
      ((∀ r ∈ disaster_data st sel, r.year ≠ p.Year) ∧
        p.total_days_lost = 0 ∧ p.total_enrollment = 0 ∧
        p.days_per_student = 0)) := by
  refine ⟨rfl, ?_, ?_, ?_, rfl, rfl, ?_⟩
  · intro r hr
    rw [county_data, List.mem_filter] at hr
    exact beq_iff_eq.mp hr.2
  · intro r hr
    rw [disaster_data, List.mem_filter] at hr
    exact beq_iff_eq.mp hr.2
  · intro r hr
    rw [enrollment_data, List.mem_filter] at hr
    have h2 := hr.2
    rw [Bool.and_eq_true, beq_iff_eq, beq_iff_eq] at h2
    exact h2
  · intro p hp
    obtain ⟨yn, hyn, hY, -, hcase⟩ :=
      mem_leftMergeFill (agg_df st sel) (disaster_data st sel) p hp
    rcases hcase with ⟨r, hr, hyr, h1, h2, h3⟩ | ⟨hnil, h1, h2, h3⟩
    · exact Or.inl ⟨r, hr, hyr.trans hY.symm, h1, h2, h3⟩
    · refine Or.inr ⟨?_, h1, h2, h3⟩
      intro r hr hcon
      have hrf : r ∈ (disaster_data st sel).filter fun x =>
          x.year == yn.1 :=
        List.mem_filter.mpr ⟨hr, beq_iff_eq.mpr (hcon.trans hY)⟩
      rw [hnil] at hrf
      exact absurd hrf (List.not_mem_nil r)

/-- C6: the callback only reads the process-wide dataframes: after any
invocation, the incident frame, the county aggregate and the enrollment
frame — indeed the whole global state — are unchanged. -/
theorem c6_callback_never_writes_globals (st : GlobalState) (sel : String) :
    (update_chart st sel).2.merged_df_california = st.merged_df_california ∧
    (update_chart st sel).2.county_agg_df = st.county_agg_df ∧
    (update_chart st sel).2.enrollment_df = st.enrollment_df ∧
    (update_chart st sel).2 = st :=
  ⟨rfl, rfl, rfl, rfl⟩

/-- C9: the position-0 read of the 2018 enrollment value happens only on a
non-empty filtered frame — when it is non-empty the result is its first
row's enrollment cell — and on an empty frame the callback falls back to
the global 2018 maximum instead of indexing. -/
theorem c9_enrollment_2018_guarded (st : GlobalState) (sel : String) :
    (enrollment_data st sel = [] →
      enrollment_2018 st sel = st.global_students_max) ∧
    (∀ e rest, enrollment_data st sel = e :: rest →
      enrollment_2018 st sel = e.enrollment) := by
  constructor
  · intro h
    unfold enrollment_2018
    rw [h]
  · intro e rest h
    unfold enrollment_2018
    rw [h]

/-- C8: after the startup filters, every incident row kept has a lowercased
California county name and a year in 2002..2018, every county-aggregate row
kept has a year in 2002..2018, and any callback invocation returns the
state unchanged, so the invariant persists. -/
theorem c8_startup_filter_invariants (inc : List CountyIncidentRow)
    (ds : List DisasterRow) (es : List EnrollmentRow) :
    (∀ r ∈ (startup inc ds es).merged_df_california,
      r.COUNTY_NAME ∈ california_counties_lower ∧
      2002 ≤ r.YEAR ∧ r.YEAR ≤ 2018) ∧
    (∀ r ∈ (startup inc ds es).county_agg_df,
      2002 ≤ r.year ∧ r.year ≤ 2018) ∧
    (∀ sel, (update_chart (startup inc ds es) sel).2
      = startup inc ds es) := by
  refine ⟨?_, ?_, fun sel => rfl⟩
  · intro r hr
    have hm : r ∈ merged_df_california inc := hr
    rw [merged_df_california, List.mem_filter] at hm
    have h2 := hm.2
    rw [Bool.and_eq_true, Bool.and_eq_true, decide_eq_true_eq,
      decide_eq_true_eq, decide_eq_true_eq] at h2
    exact ⟨h2.1.1, h2.1.2, h2.2⟩
  · intro r hr
    have hm : r ∈ countyAggFiltered (disasterEnrollment ds es) := hr
    rw [countyAggFiltered, List.mem_filter] at hm
    have h2 := hm.2
    rw [Bool.and_eq_true, decide_eq_true_eq, decide_eq_true_eq] at h2
    exact h2

/-- The aggregate's (year, county) column pair is exactly the group-key
list. -/
theorem countyAgg_keys (ms : List MergedRow) :
    (countyAgg ms).map (fun r => (r.year, r.county)) = groupKeys ms := by
  rw [countyAgg, List.map_map]
  exact List.map_id _

/-- The group keys are distinct, so the aggregate has one row per
(year, county) pair. -/
theorem countyAgg_keys_nodup (ms : List MergedRow) :
    ((countyAgg ms).map fun r => (r.year, r.county)).Nodup := by
  rw [countyAgg_keys]
  exact List.nodup_dedup _

/-- Rows with pairwise distinct (year, county) keys and one shared county
have pairwise distinct years. -/
theorem nodup_year_of_nodup_key_const_county (c : String) :
    ∀ l : List AggRow, ((l.map fun r => (r.year, r.county)).Nodup) →
      (∀ r ∈ l, r.county = c) → (l.map AggRow.year).Nodup := by
  intro l
  induction l with
  | nil => simp
  | cons a t ih =>
    intro hnd hc
    simp only [List.map_cons, List.nodup_cons] at hnd ⊢
    refine ⟨?_, ih hnd.2 fun r hr => hc r (List.mem_cons_of_mem _ hr)⟩
    intro hmem
    rw [List.mem_map] at hmem
    obtain ⟨r, hr, hyr⟩ := hmem
    apply hnd.1
    rw [List.mem_map]
    refine ⟨r, hr, ?_⟩
    have hrc : r.county = c := hc r (List.mem_cons_of_mem _ hr)
    have hac : a.county = c := hc a (List.mem_cons_self _ _)
    rw [hyr, hrc, hac]

/-- In the state built by startup, the selected county's aggregate rows
have pairwise distinct years. -/
theorem startup_disaster_years_nodup (inc : List CountyIncidentRow)
    (ds : List DisasterRow) (es : List EnrollmentRow) (sel : String) :
    ((disaster_data (startup inc ds es) sel).map AggRow.year).Nodup := by
  apply nodup_year_of_nodup_key_const_county (strLower sel)
  · have h1 : ((countyAgg (disasterEnrollment ds es)).map fun r =>
        (r.year, r.county)).Nodup := countyAgg_keys_nodup _
    have hsub : List.Sublist (disaster_data (startup inc ds es) sel)
        (countyAgg (disasterEnrollment ds es)) :=
      (List.filter_sublist _).trans (List.filter_sublist _)
    exact List.Nodup.sublist (hsub.map _) h1
  · intro r hr
    rw [disaster_data, List.mem_filter] at hr
    exact beq_iff_eq.mp hr.2

/-- When the right table has pairwise distinct years, the left join keeps
exactly the left rows: the plot years are the counted years in order. -/
theorem leftMergeFill_years (agg : List (ℤ × ℕ)) (da : List AggRow)
    (h : (da.map AggRow.year).Nodup) :
    (leftMergeFill agg da).map PlotRow.Year = agg.map Prod.fst := by
  induction agg with
  | nil => rfl
  | cons yc t ih =>
    have step : leftMergeFill (yc :: t) da
        = (if (da.filter fun r => r.year == yc.1).isEmpty then
            [⟨yc.1, yc.2, 0, 0, 0⟩]
          else (da.filter fun r => r.year == yc.1).map fun r =>
            ⟨yc.1, yc.2, r.total_days_lost, r.total_enrollment,
              (AggRow.days_per_student r).getD 0⟩) ++ leftMergeFill t da := by
      rfl
    rw [step, List.map_append, ih, List.map_cons]
    by_cases hE : ((da.filter fun r => r.year == yc.1).isEmpty = true)
    · rw [if_pos hE]
      rfl
    · rcases hfil : (da.filter fun r => r.year == yc.1) with _ | ⟨r0, rest⟩
      · rw [hfil] at hE
        simp at hE
      · have hsub : List.Sublist (r0 :: rest) da := by
          rw [← hfil]
          exact List.filter_sublist _
        have hnd2 : ((r0 :: rest).map AggRow.year).Nodup :=
          List.Nodup.sublist (hsub.map _) h
        rcases rest with _ | ⟨r1, rr⟩
        · rw [if_neg hE, hfil]
          rfl
        · exfalso
          have h0 : r0 ∈ da.filter fun r => r.year == yc.1 := by
            rw [hfil]
            exact List.mem_cons_self _ _
          have h1 : r1 ∈ da.filter fun r => r.year == yc.1 := by
            rw [hfil]
            exact List.mem_cons_of_mem _ (List.mem_cons_self _ _)
          have hy0 : r0.year = yc.1 :=
            beq_iff_eq.mp (List.mem_filter.mp h0).2
          have hy1 : r1.year = yc.1 :=
            beq_iff_eq.mp (List.mem_filter.mp h1).2
          simp only [List.map_cons, List.nodup_cons, List.mem_cons,
            List.mem_map] at hnd2
          exact hnd2.1 (Or.inl (hy1.trans hy0.symm).symm)

/-- The counted years of the callback are the distinct years of the
county's filtered incident rows, in order of first appearance. -/
theorem agg_df_fst (st : GlobalState) (sel : String) :
    (agg_df st sel).map Prod.fst
      = ((county_data st sel).map CountyIncidentRow.YEAR).dedup := by
  rw [agg_df, List.map_map]
  exact List.map_id _

/-- Looking up "Year" in a table record gives the row's year. -/
theorem toRecord_lookup_Year (p : PlotRow) :
    (PlotRow.toRecord p).lookup "Year" = some (Val.int p.Year) := by
  simp [PlotRow.toRecord, List.lookup]

/-- Looking up "Students_Affected" in a table record gives the row's
count. -/
theorem toRecord_lookup_SA (p : PlotRow) :
    (PlotRow.toRecord p).lookup "Students_Affected"
      = some (Val.int (p.Students_Affected : ℤ)) := by
  simp [PlotRow.toRecord, List.lookup]

/-- C10: the callback's chart and table are consistent: the table has
exactly one record per distinct year of the county's filtered incident
rows, every record carries exactly the five expected keys, and the bar
trace's x and y columns agree with the records' Year and
Students_Affected values in the same order. -/
theorem c10_table_chart_consistent (inc : List CountyIncidentRow)
    (ds : List DisasterRow) (es : List EnrollmentRow) (sel : String) :
    (∀ rec ∈ (update_chart (startup inc ds es) sel).1.tableData,
      rec.map Prod.fst = ["Year", "Students_Affected", "total_days_lost",
        "total_enrollment", "days_per_student"]) ∧
    ((update_chart (startup inc ds es) sel).1.tableData.map
        (fun rec => rec.lookup "Year")
      = ((county_data (startup inc ds es) sel).map
          CountyIncidentRow.YEAR).dedup.map fun y => some (Val.int y)) ∧
    (∃ bt lt, (update_chart (startup inc ds es) sel).1.traces = [bt, lt] ∧
      bt.kind = TraceKind.bar ∧ lt.kind = TraceKind.scatter ∧
      bt.x = (plot_df (startup inc ds es) sel).map PlotRow.Year ∧
      bt.y = ((plot_df (startup inc ds es) sel).map
        fun p => (p.Students_Affected : ℚ)) ∧
      ((update_chart (startup inc ds es) sel).1.tableData.map
          (fun rec => rec.lookup "Year")
        = bt.x.map fun y => some (Val.int y)) ∧
      ((update_chart (startup inc ds es) sel).1.tableData.map
          (fun rec => rec.lookup "Students_Affected")
        = (plot_df (startup inc ds es) sel).map
            fun p => some (Val.int (p.Students_Affected : ℤ)))) := by
  have hyears : (plot_df (startup inc ds es) sel).map PlotRow.Year
      = (agg_df (startup inc ds es) sel).map Prod.fst :=
    leftMergeFill_years _ _ (startup_disaster_years_nodup inc ds es sel)
  have htab : (update_chart (startup inc ds es) sel).1.tableData
      = (plot_df (startup inc ds es) sel).map PlotRow.toRecord := rfl
  have hlookY : (update_chart (startup inc ds es) sel).1.tableData.map
      (fun rec => rec.lookup "Year")
      = ((plot_df (startup inc ds es) sel).map PlotRow.Year).map
          fun y => some (Val.int y) := by
    rw [htab, List.map_map, List.map_map]
    apply List.map_congr_left
    intro p _
    exact toRecord_lookup_Year p
  refine ⟨?_, ?_, ?_⟩
  · intro rec hrec
    rw [htab, List.mem_map] at hrec
    obtain ⟨p, -, rfl⟩ := hrec
    rfl
  · rw [hlookY, hyears, agg_df_fst]
  · refine ⟨_, _, rfl, rfl, rfl, rfl, rfl, hlookY, ?_⟩
    rw [htab, List.map_map]
    apply List.map_congr_left
    intro p _
    exact toRecord_lookup_SA p

end WildfireSchools
